import Mathlib

/-!
Verification of the SPL lexer (src/exercises/spl/src/lexer.rs, token.rs, error.rs).

The lexer present in src/lexer.rs is the permissive revision: `tokenize`
returns only the token list and reports lexical failures on stderr, and a
lone `!` is accepted as a boolean-not token.  The repository also carries
the declarations (`LexerError` in error.rs) and the caller (bin/lexer.rs)
of a strict, error-collecting revision of `tokenize` whose implementation
is not under src/; that variant is modelled from the specification below
(`dispatchStrict`, `tokenizeStrict`).

Machine integers (`usize` line/column counters) are modelled as `Nat`:
none of the verified facts approach overflow.  Rust's Unicode
`is_alphabetic`/`is_alphanumeric` are modelled by the ASCII classifiers,
which agree with them on every character the claims exercise;
`is_digit(10)` is exactly the ASCII digit test in both languages.
-/

namespace SPL

/-- Position within an input file (error.rs, `Position`). -/
structure Position where
  line : Nat
  column : Nat
deriving DecidableEq, Repr

/-- Errors returned by the lexer (error.rs, `LexerError`). -/
inductive LexerError where
  | UnterminatedStringSequence (starts_at : Position) (ends_at : Position)
  | UnexpectedChar (position : Position) (c : Char)
deriving DecidableEq, Repr

/-- Token kinds (token.rs, `TokenType`).  `BooleanNot` is referenced by
lexer.rs (`TokenType::BooleanNot`) although the token.rs revision in src/
does not list it; it is included so lexer.rs can be embedded as written. -/
inductive TokenType where
  | Plus | Minus | Times | Divide
  | Equals | DoubleEquals | NotEquals
  | Greater | Less | GreaterOrEqual | LessOrEqual
  | BooleanNot
  | Semicolon
  | OpeningParentheses | ClosingParentheses
  | OpeningBraces | ClosingBraces
  | True | False | And | Or | Var | Print | If | Else | While
  | Number | String
  | Identifier
  | EndOfile
deriving DecidableEq, Repr

/-- A token (token.rs, `Token`). -/
structure Token where
  token_type : TokenType
  lexeme : String
  line : Nat
deriving DecidableEq, Repr

/-- The lexer's cursor state: the unconsumed input (Rust's `Peekable<Chars>`)
plus the line and column counters (lexer.rs, `struct Lexer`). -/
structure LexState where
  input : List Char
  line : Nat
  column : Nat
deriving DecidableEq, Repr

/-- `Lexer::new`: fresh cursor over the whole source, line 1, column 0. -/
def Lexer.new (source : String) : LexState :=
  { input := source.data, line := 1, column := 0 }

/-- `Lexer::peek`: next unconsumed character, without advancing. -/
def peek (s : LexState) : Option Char :=
  s.input.head?

/-- `Lexer::advance`: increments `column`, then takes the next character;
if that character is a newline, increments `line` and resets `column` to 0.
At end of input returns `none` (the column increment has already happened). -/
def advance (s : LexState) : Option Char × LexState :=
  match s.input with
  | [] => (none, { s with column := s.column + 1 })
  | c :: rest =>
    if c = '\n' then
      (some c, { input := rest, line := s.line + 1, column := 0 })
    else
      (some c, { input := rest, line := s.line, column := s.column + 1 })

/-- `Lexer::advance_if_equal`: consumes one character and returns true only
if `peek()` equals `expected`; otherwise leaves the state untouched.
Consumption bumps `column` only (no newline bookkeeping). -/
def advanceIfEqual (expected : Char) (s : LexState) : Bool × LexState :=
  match peek s with
  | none => (false, s)
  | some c =>
    if c = expected then
      (true, { s with input := s.input.tail, column := s.column + 1 })
    else
      (false, s)

/-- Fuel-indexed body of `Lexer::advance_until_equal`.  Each iteration
performs one `advance`; a fuel of `input.length + 1` is always enough, so
the fuel-0 arm is never reached from `advanceUntilEqual`. -/
def advanceUntilEqualGo (fuel : Nat) (expected : Char) (s : LexState) :
    Except Unit (List Char) × LexState :=
  match fuel with
  | 0 => (.error (), s)
  | Nat.succ n =>
    match advance s with
    | (none, s1) => (.error (), s1)
    | (some c, s1) =>
      if c = expected then (.ok [], s1)
      else
        let r := advanceUntilEqualGo n expected s1
        (Except.map (fun cs => c :: cs) r.fst, r.snd)

/-- `Lexer::advance_until_equal`: consumes characters up to and including
the first occurrence of `expected`, returning the ones before it; errors
if input runs out first. -/
def advanceUntilEqual (expected : Char) (s : LexState) :
    Except Unit (List Char) × LexState :=
  advanceUntilEqualGo (s.input.length + 1) expected s

/-- Fuel-indexed body of `Lexer::advance_while_matching`. -/
def advanceWhileMatchingGo (fuel : Nat) (f : Char → Bool) (s : LexState) :
    List Char × LexState :=
  match fuel with
  | 0 => ([], s)
  | Nat.succ n =>
    match peek s with
    | none => ([], s)
    | some c =>
      if f c then
        let s1 := (advance s).snd
        let r := advanceWhileMatchingGo n f s1
        (c :: r.fst, r.snd)
      else ([], s)

/-- `Lexer::advance_while_matching`: consumes the maximal run of characters
satisfying `f`. -/
def advanceWhileMatching (f : Char → Bool) (s : LexState) : List Char × LexState :=
  advanceWhileMatchingGo (s.input.length + 1) f s

/-- Rust's `char::is_alphabetic`, restricted to the ASCII fragment. -/
def isAlphabetic (c : Char) : Bool := c.isAlpha

/-- Rust's `char::is_alphanumeric`, restricted to the ASCII fragment. -/
def isAlphanumeric (c : Char) : Bool := c.isAlphanum

/-- Rust's `char::is_digit(10)` (exactly the ASCII digits). -/
def isDigit10 (c : Char) : Bool := c.isDigit

/-- The keyword lookup performed on a completed name (lexer.rs lines
267-331): the nine keywords map to their dedicated variants, anything else
is an `Identifier` carrying the full name. -/
def nameToken (name : String) (line : Nat) : Token :=
  if name = "true" then { token_type := .True, lexeme := "true", line := line }
  else if name = "false" then { token_type := .False, lexeme := "false", line := line }
  else if name = "and" then { token_type := .And, lexeme := "and", line := line }
  else if name = "or" then { token_type := .Or, lexeme := "or", line := line }
  else if name = "var" then { token_type := .Var, lexeme := "var", line := line }
  else if name = "print" then { token_type := .Print, lexeme := "print", line := line }
  else if name = "if" then { token_type := .If, lexeme := "if", line := line }
  else if name = "else" then { token_type := .Else, lexeme := "else", line := line }
  else if name = "while" then { token_type := .While, lexeme := "while", line := line }
  else { token_type := .Identifier, lexeme := name, line := line }

/-- One arm of the `match c` dispatch in `Lexer::tokenize` (lexer.rs lines
113-362), applied to the already-consumed character `c` and the state `s`
reached after consuming it.  Returns the tokens pushed in this iteration
(zero or one) and the updated state.  The arms appear in source order; the
guarded catch-all becomes the trailing classifier tests.  Errors
(unterminated string, unexpected char) only print in this revision, so
those arms push nothing. -/
def dispatch (c : Char) (s : LexState) : List Token × LexState :=
  if c = '+' then ([{ token_type := .Plus, lexeme := "+", line := s.line }], s)
  else if c = '-' then ([{ token_type := .Minus, lexeme := "-", line := s.line }], s)
  else if c = '*' then ([{ token_type := .Times, lexeme := "*", line := s.line }], s)
  else if c = '/' then
    let r := advanceIfEqual '/' s
    if r.fst then
      ([], (advanceUntilEqual '\n' r.snd).snd)
    else
      ([{ token_type := .Divide, lexeme := "/", line := r.snd.line }], r.snd)
  else if c = '=' then
    let r := advanceIfEqual '=' s
    if r.fst then
      ([{ token_type := .DoubleEquals, lexeme := "==", line := r.snd.line }], r.snd)
    else
      ([{ token_type := .Equals, lexeme := "=", line := r.snd.line }], r.snd)
  else if c = '>' then
    let r := advanceIfEqual '=' s
    if r.fst then
      ([{ token_type := .GreaterOrEqual, lexeme := ">=", line := r.snd.line }], r.snd)
    else
      ([{ token_type := .Greater, lexeme := ">", line := r.snd.line }], r.snd)
  else if c = '<' then
    let r := advanceIfEqual '=' s
    if r.fst then
      ([{ token_type := .LessOrEqual, lexeme := "<=", line := r.snd.line }], r.snd)
    else
      ([{ token_type := .Less, lexeme := "<", line := r.snd.line }], r.snd)
  else if c = '!' then
    let r := advanceIfEqual '=' s
    if r.fst then
      ([{ token_type := .NotEquals, lexeme := "!=", line := r.snd.line }], r.snd)
    else
      ([{ token_type := .BooleanNot, lexeme := "!", line := r.snd.line }], r.snd)
  else if c = ';' then ([{ token_type := .Semicolon, lexeme := ";", line := s.line }], s)
  else if c = '(' then
    ([{ token_type := .OpeningParentheses, lexeme := "(", line := s.line }], s)
  else if c = ')' then
    ([{ token_type := .ClosingParentheses, lexeme := ")", line := s.line }], s)
  else if c = '\x7b' then
    ([{ token_type := .OpeningBraces, lexeme := "\x7b", line := s.line }], s)
  else if c = '\x7d' then
    ([{ token_type := .ClosingBraces, lexeme := "\x7d", line := s.line }], s)
  else if c = '"' then
    let r := advanceUntilEqual '"' s
    match r.fst with
    | .ok cs =>
      ([{ token_type := .String, lexeme := String.mk cs, line := r.snd.line }], r.snd)
    | .error _ => ([], r.snd)
  else if c = '\n' then ([], s)
  else if c = ' ' then ([], s)
  else if c = '\t' then ([], s)
  else if isAlphabetic c then
    let r := advanceWhileMatching isAlphanumeric s
    ([nameToken (String.mk (c :: r.fst)) r.snd.line], r.snd)
  else if isDigit10 c then
    let r := advanceWhileMatching isDigit10 s
    let d := advanceIfEqual '.' r.snd
    if d.fst then
      let r2 := advanceWhileMatching isDigit10 d.snd
      ([{ token_type := .Number, lexeme := String.mk (c :: r.fst ++ '.' :: r2.fst),
          line := r2.snd.line }], r2.snd)
    else
      ([{ token_type := .Number, lexeme := String.mk (c :: r.fst),
          line := d.snd.line }], d.snd)
  else ([], s)

/-- Fuel-indexed body of the `while let Some(c) = self.advance()` loop of
`Lexer::tokenize`.  Every iteration either consumes at least one character
or ends the loop, so `input.length + 1` fuel always runs to exhaustion. -/
def tokenizeLoop (fuel : Nat) (s : LexState) : List Token × LexState :=
  match fuel with
  | 0 => ([], s)
  | Nat.succ n =>
    match advance s with
    | (none, s1) => ([], s1)
    | (some c, s1) =>
      let d := dispatch c s1
      let rest := tokenizeLoop n d.snd
      (d.fst ++ rest.fst, rest.snd)

/-- `Lexer::tokenize` run from a fresh lexer over `source`, returning the
token list together with the final cursor state. -/
def tokenizeFull (source : String) : List Token × LexState :=
  tokenizeLoop (source.data.length + 1) (Lexer.new source)

/-- `Lexer::tokenize`: the token list alone (the Rust return value). -/
def tokenize (source : String) : List Token :=
  (tokenizeFull source).fst

/-- Modelled from the spec: one dispatch arm of the strict, error-collecting
revision of `tokenize`, whose implementation is absent from src/ (error.rs
declares its `LexerError` values and bin/lexer.rs consumes its result).
Identical to `dispatch` except that, per the spec, a lone `!` is reported
as `UnexpectedChar` at the position of the `!` instead of becoming a
boolean-not token, an unterminated string is reported as
`UnterminatedStringSequence` from the opening quote's position to the
position where scanning stopped, and an unrecognized character is reported
as `UnexpectedChar` at its position; all are collected, none abort. -/
def dispatchStrict (c : Char) (s : LexState) :
    List Token × List LexerError × LexState :=
  if c = '+' then ([{ token_type := .Plus, lexeme := "+", line := s.line }], [], s)
  else if c = '-' then ([{ token_type := .Minus, lexeme := "-", line := s.line }], [], s)
  else if c = '*' then ([{ token_type := .Times, lexeme := "*", line := s.line }], [], s)
  else if c = '/' then
    let r := advanceIfEqual '/' s
    if r.fst then
      ([], [], (advanceUntilEqual '\n' r.snd).snd)
    else
      ([{ token_type := .Divide, lexeme := "/", line := r.snd.line }], [], r.snd)
  else if c = '=' then
    let r := advanceIfEqual '=' s
    if r.fst then
      ([{ token_type := .DoubleEquals, lexeme := "==", line := r.snd.line }], [], r.snd)
    else
      ([{ token_type := .Equals, lexeme := "=", line := r.snd.line }], [], r.snd)
  else if c = '>' then
    let r := advanceIfEqual '=' s
    if r.fst then
      ([{ token_type := .GreaterOrEqual, lexeme := ">=", line := r.snd.line }], [], r.snd)
    else
      ([{ token_type := .Greater, lexeme := ">", line := r.snd.line }], [], r.snd)
  else if c = '<' then
    let r := advanceIfEqual '=' s
    if r.fst then
      ([{ token_type := .LessOrEqual, lexeme := "<=", line := r.snd.line }], [], r.snd)
    else
      ([{ token_type := .Less, lexeme := "<", line := r.snd.line }], [], r.snd)
  else if c = '!' then
    let r := advanceIfEqual '=' s
    if r.fst then
      ([{ token_type := .NotEquals, lexeme := "!=", line := r.snd.line }], [], r.snd)
    else
      ([], [.UnexpectedChar { line := s.line, column := s.column } '!'], r.snd)
  else if c = ';' then ([{ token_type := .Semicolon, lexeme := ";", line := s.line }], [], s)
  else if c = '(' then
    ([{ token_type := .OpeningParentheses, lexeme := "(", line := s.line }], [], s)
  else if c = ')' then
    ([{ token_type := .ClosingParentheses, lexeme := ")", line := s.line }], [], s)
  else if c = '\x7b' then
    ([{ token_type := .OpeningBraces, lexeme := "\x7b", line := s.line }], [], s)
  else if c = '\x7d' then
    ([{ token_type := .ClosingBraces, lexeme := "\x7d", line := s.line }], [], s)
  else if c = '"' then
    let r := advanceUntilEqual '"' s
    match r.fst with
    | .ok cs =>
      ([{ token_type := .String, lexeme := String.mk cs, line := r.snd.line }], [], r.snd)
    | .error _ =>
      ([], [.UnterminatedStringSequence { line := s.line, column := s.column }
              { line := r.snd.line, column := r.snd.column }], r.snd)
  else if c = '\n' then ([], [], s)
  else if c = ' ' then ([], [], s)
  else if c = '\t' then ([], [], s)
  else if isAlphabetic c then
    let r := advanceWhileMatching isAlphanumeric s
    ([nameToken (String.mk (c :: r.fst)) r.snd.line], [], r.snd)
  else if isDigit10 c then
    let r := advanceWhileMatching isDigit10 s
    let d := advanceIfEqual '.' r.snd
    if d.fst then
      let r2 := advanceWhileMatching isDigit10 d.snd
      ([{ token_type := .Number, lexeme := String.mk (c :: r.fst ++ '.' :: r2.fst),
          line := r2.snd.line }], [], r2.snd)
    else
      ([{ token_type := .Number, lexeme := String.mk (c :: r.fst),
          line := d.snd.line }], [], d.snd)
  else ([], [.UnexpectedChar { line := s.line, column := s.column } c], s)

/-- Modelled from the spec: the strict tokenize loop, accumulating tokens
and errors side by side. -/
def tokenizeStrictLoop (fuel : Nat) (s : LexState) :
    List Token × List LexerError × LexState :=
  match fuel with
  | 0 => ([], [], s)
  | Nat.succ n =>
    match advance s with
    | (none, s1) => ([], [], s1)
    | (some c, s1) =>
      let d := dispatchStrict c s1
      let rest := tokenizeStrictLoop n d.snd.snd
      (d.fst ++ rest.fst, d.snd.fst ++ rest.snd.fst, rest.snd.snd)

/-- Modelled from the spec: the strict tokenize over a fresh lexer,
returning tokens, errors and the final cursor state. -/
def tokenizeStrictFull (source : String) :
    List Token × List LexerError × LexState :=
  tokenizeStrictLoop (source.data.length + 1) (Lexer.new source)

/-- Modelled from the spec: one `tokenize` call of the strict revision
returns both the ordered token sequence and the collected errors. -/
def tokenizeStrict (source : String) : List Token × List LexerError :=
  ((tokenizeStrictFull source).fst, (tokenizeStrictFull source).snd.fst)

/-- The number of characters of `source` after its last newline: since
`tokenize` consumes the whole input, this is the number of characters
consumed on the final line (the measure the spec's claims refer to). -/
def charsAfterLastNewline (source : String) : Nat :=
  (source.data.reverse.takeWhile (fun c => !(c == '\n'))).length

/-! ## Cursor-primitive lemmas -/

theorem aie_of_peek_eq {s : LexState} {e : Char} (h : peek s = some e) :
    advanceIfEqual e s = (true, { s with input := s.input.tail, column := s.column + 1 }) := by
  unfold advanceIfEqual
  rw [h]
  simp

theorem aie_of_peek_ne {s : LexState} {e : Char} (h : peek s ≠ some e) :
    advanceIfEqual e s = (false, s) := by
  unfold advanceIfEqual
  cases hp : peek s with
  | none => rfl
  | some c =>
    have hce : c ≠ e := fun hc => h (hc ▸ hp)
    simp [hce]

theorem aie_line (e : Char) (s : LexState) :
    ((advanceIfEqual e s).snd).line = s.line := by
  unfold advanceIfEqual
  cases peek s with
  | none => rfl
  | some c =>
    by_cases hc : c = e <;> simp [hc]

theorem advance_snd_line {s : LexState} {c : Char} (h : peek s = some c)
    (hc : c ≠ '\n') : ((advance s).snd).line = s.line := by
  cases s with
  | mk inp l col =>
    cases inp with
    | nil => simp [peek] at h
    | cons a rest =>
      simp [peek] at h
      subst h
      simp [advance, hc]

theorem awmGo_line (f : Char → Bool) (hf : f '\n' = false) :
    ∀ (n : Nat) (s : LexState), ((advanceWhileMatchingGo n f s).snd).line = s.line := by
  intro n
  induction n with
  | zero => intro s; rfl
  | succ n ih =>
    intro s
    unfold advanceWhileMatchingGo
    cases hp : peek s with
    | none => rfl
    | some c =>
      by_cases hc : f c = true
      · have hcn : c ≠ '\n' := by
          intro hn
          rw [hn, hf] at hc
          exact absurd hc (by decide)
        simp only [hc, if_true]
        rw [ih ((advance s).snd), advance_snd_line hp hcn]
      · simp [hc]

theorem awm_line (f : Char → Bool) (hf : f '\n' = false) (s : LexState) :
    ((advanceWhileMatching f s).snd).line = s.line :=
  awmGo_line f hf _ s

theorem nameToken_line (name : String) (line : Nat) :
    (nameToken name line).line = line := by
  unfold nameToken
  split_ifs <;> rfl

theorem char_ne_of_classifier {p : Char → Bool} {c : Char} (hp : p c = true)
    (d : Char) (hd : p d = false) : c ≠ d := by
  intro h
  rw [h, hd] at hp
  exact absurd hp (by decide)

theorem awm_alnum_line (s : LexState) :
    ((advanceWhileMatching isAlphanumeric s).snd).line = s.line :=
  awm_line _ (by decide) s

theorem awm_digit_line (s : LexState) :
    ((advanceWhileMatching isDigit10 s).snd).line = s.line :=
  awm_line _ (by decide) s

/-- An alphabetic character always reaches the identifier/keyword arm of
the dispatch. -/
theorem dispatch_alpha (c : Char) (s : LexState) (hc : isAlphabetic c = true) :
    dispatch c s =
      (let r := advanceWhileMatching isAlphanumeric s
       ([nameToken (String.mk (c :: r.fst)) r.snd.line], r.snd)) := by
  have hne : ∀ d : Char, isAlphabetic d = false → c ≠ d :=
    fun d hd => char_ne_of_classifier hc d hd
  unfold dispatch
  rw [if_neg (hne '+' (by decide)), if_neg (hne '-' (by decide)),
    if_neg (hne '*' (by decide)), if_neg (hne '/' (by decide)),
    if_neg (hne '=' (by decide)), if_neg (hne '>' (by decide)),
    if_neg (hne '<' (by decide)), if_neg (hne '!' (by decide)),
    if_neg (hne ';' (by decide)), if_neg (hne '(' (by decide)),
    if_neg (hne ')' (by decide)), if_neg (hne '\x7b' (by decide)),
    if_neg (hne '\x7d' (by decide)), if_neg (hne '"' (by decide)),
    if_neg (hne '\n' (by decide)), if_neg (hne ' ' (by decide)),
    if_neg (hne '\t' (by decide)), if_pos hc]

/-- A digit always reaches the numeric-literal arm of the dispatch. -/
theorem dispatch_digit (c : Char) (s : LexState) (hd : isDigit10 c = true)
    (ha : isAlphabetic c = false) :
    dispatch c s =
      (let r := advanceWhileMatching isDigit10 s
       let d := advanceIfEqual '.' r.snd
       if d.fst then
         let r2 := advanceWhileMatching isDigit10 d.snd
         ([{ token_type := .Number, lexeme := String.mk (c :: r.fst ++ '.' :: r2.fst),
             line := r2.snd.line }], r2.snd)
       else
         ([{ token_type := .Number, lexeme := String.mk (c :: r.fst),
             line := d.snd.line }], d.snd)) := by
  have hne : ∀ d : Char, isDigit10 d = false → c ≠ d :=
    fun d h => char_ne_of_classifier hd d h
  unfold dispatch
  rw [if_neg (hne '+' (by decide)), if_neg (hne '-' (by decide)),
    if_neg (hne '*' (by decide)), if_neg (hne '/' (by decide)),
    if_neg (hne '=' (by decide)), if_neg (hne '>' (by decide)),
    if_neg (hne '<' (by decide)), if_neg (hne '!' (by decide)),
    if_neg (hne ';' (by decide)), if_neg (hne '(' (by decide)),
    if_neg (hne ')' (by decide)), if_neg (hne '\x7b' (by decide)),
    if_neg (hne '\x7d' (by decide)), if_neg (hne '"' (by decide)),
    if_neg (hne '\n' (by decide)), if_neg (hne ' ' (by decide)),
    if_neg (hne '\t' (by decide)), if_neg (by simp [ha]), if_pos hd]

/-- Keyword lookup never produces the boolean-not token kind. -/
theorem nameToken_not_boolnot (name : String) (line : Nat) :
    ((nameToken name line).token_type == TokenType.BooleanNot) = false := by
  unfold nameToken
  split_ifs <;> rfl

/-- An alphabetic character reaches the identifier/keyword arm of the
strict dispatch as well. -/
theorem dispatchStrict_alpha (c : Char) (s : LexState) (hc : isAlphabetic c = true) :
    dispatchStrict c s =
      (let r := advanceWhileMatching isAlphanumeric s
       ([nameToken (String.mk (c :: r.fst)) r.snd.line], [], r.snd)) := by
  have hne : ∀ d : Char, isAlphabetic d = false → c ≠ d :=
    fun d hd => char_ne_of_classifier hc d hd
  unfold dispatchStrict
  rw [if_neg (hne '+' (by decide)), if_neg (hne '-' (by decide)),
    if_neg (hne '*' (by decide)), if_neg (hne '/' (by decide)),
    if_neg (hne '=' (by decide)), if_neg (hne '>' (by decide)),
    if_neg (hne '<' (by decide)), if_neg (hne '!' (by decide)),
    if_neg (hne ';' (by decide)), if_neg (hne '(' (by decide)),
    if_neg (hne ')' (by decide)), if_neg (hne '\x7b' (by decide)),
    if_neg (hne '\x7d' (by decide)), if_neg (hne '"' (by decide)),
    if_neg (hne '\n' (by decide)), if_neg (hne ' ' (by decide)),
    if_neg (hne '\t' (by decide)), if_pos hc]

/-- A digit reaches the numeric-literal arm of the strict dispatch as
well. -/
theorem dispatchStrict_digit (c : Char) (s : LexState) (hd : isDigit10 c = true)
    (ha : isAlphabetic c = false) :
    dispatchStrict c s =
      (let r := advanceWhileMatching isDigit10 s
       let d := advanceIfEqual '.' r.snd
       if d.fst then
         let r2 := advanceWhileMatching isDigit10 d.snd
         ([{ token_type := .Number, lexeme := String.mk (c :: r.fst ++ '.' :: r2.fst),
             line := r2.snd.line }], [], r2.snd)
       else
         ([{ token_type := .Number, lexeme := String.mk (c :: r.fst),
             line := d.snd.line }], [], d.snd)) := by
  have hne : ∀ d : Char, isDigit10 d = false → c ≠ d :=
    fun d h => char_ne_of_classifier hd d h
  unfold dispatchStrict
  rw [if_neg (hne '+' (by decide)), if_neg (hne '-' (by decide)),
    if_neg (hne '*' (by decide)), if_neg (hne '/' (by decide)),
    if_neg (hne '=' (by decide)), if_neg (hne '>' (by decide)),
    if_neg (hne '<' (by decide)), if_neg (hne '!' (by decide)),
    if_neg (hne ';' (by decide)), if_neg (hne '(' (by decide)),
    if_neg (hne ')' (by decide)), if_neg (hne '\x7b' (by decide)),
    if_neg (hne '\x7d' (by decide)), if_neg (hne '"' (by decide)),
    if_neg (hne '\n' (by decide)), if_neg (hne ' ' (by decide)),
    if_neg (hne '\t' (by decide)), if_neg (by simp [ha]), if_pos hd]

/-- Per-iteration comparison of the strict (spec-modelled) and the
permissive (src/) dispatch: the strict arm pushes exactly the permissive
arm's tokens except a lone-`!` boolean-not token (which it reports as an
error instead), and both leave the cursor in the same state. -/
theorem dispatchStrict_vs_dispatch (c : Char) (s : LexState) :
    (dispatchStrict c s).fst
      = ((dispatch c s).fst).filter (fun t => !(t.token_type == TokenType.BooleanNot))
    ∧ (dispatchStrict c s).snd.snd = (dispatch c s).snd := by
  by_cases h1 : c = '+'
  · subst h1; constructor <;> simp [dispatch, dispatchStrict, List.filter] <;> rfl
  by_cases h2 : c = '-'
  · subst h2; constructor <;> simp [dispatch, dispatchStrict, List.filter] <;> rfl
  by_cases h3 : c = '*'
  · subst h3; constructor <;> simp [dispatch, dispatchStrict, List.filter] <;> rfl
  by_cases h4 : c = '/'
  · subst h4
    by_cases hr : (advanceIfEqual '/' s).fst = true <;>
      constructor <;> simp [dispatch, dispatchStrict, hr, List.filter] <;> rfl
  by_cases h5 : c = '='
  · subst h5
    by_cases hr : (advanceIfEqual '=' s).fst = true <;>
      constructor <;> simp [dispatch, dispatchStrict, hr, List.filter] <;> rfl
  by_cases h6 : c = '>'
  · subst h6
    by_cases hr : (advanceIfEqual '=' s).fst = true <;>
      constructor <;> simp [dispatch, dispatchStrict, hr, List.filter] <;> rfl
  by_cases h7 : c = '<'
  · subst h7
    by_cases hr : (advanceIfEqual '=' s).fst = true <;>
      constructor <;> simp [dispatch, dispatchStrict, hr, List.filter] <;> rfl
  by_cases h8 : c = '!'
  · subst h8
    by_cases hr : (advanceIfEqual '=' s).fst = true <;>
      constructor <;> simp [dispatch, dispatchStrict, hr, List.filter] <;> rfl
  by_cases h9 : c = ';'
  · subst h9; constructor <;> simp [dispatch, dispatchStrict, List.filter] <;> rfl
  by_cases h10 : c = '('
  · subst h10; constructor <;> simp [dispatch, dispatchStrict, List.filter] <;> rfl
  by_cases h11 : c = ')'
  · subst h11; constructor <;> simp [dispatch, dispatchStrict, List.filter] <;> rfl
  by_cases h12 : c = '\x7b'
  · subst h12; constructor <;> simp [dispatch, dispatchStrict, List.filter] <;> rfl
  by_cases h13 : c = '\x7d'
  · subst h13; constructor <;> simp [dispatch, dispatchStrict, List.filter] <;> rfl
  by_cases h14 : c = '"'
  · subst h14
    cases hq : (advanceUntilEqual '"' s).fst with
    | ok cs => constructor <;> simp [dispatch, dispatchStrict, hq, List.filter] <;> rfl
    | error e => constructor <;> simp [dispatch, dispatchStrict, hq, List.filter] <;> rfl
  by_cases h15 : c = '\n'
  · subst h15; constructor <;> simp [dispatch, dispatchStrict, List.filter] <;> rfl
  by_cases h16 : c = ' '
  · subst h16; constructor <;> simp [dispatch, dispatchStrict, List.filter] <;> rfl
  by_cases h17 : c = '\t'
  · subst h17; constructor <;> simp [dispatch, dispatchStrict, List.filter] <;> rfl
  by_cases ha : isAlphabetic c = true
  · rw [dispatch_alpha c s ha, dispatchStrict_alpha c s ha]
    constructor <;> simp [List.filter, nameToken_not_boolnot] <;> rfl
  by_cases hd : isDigit10 c = true
  · have ha2 : isAlphabetic c = false := by
      cases hA : isAlphabetic c
      · rfl
      · exact absurd hA ha
    rw [dispatch_digit c s hd ha2, dispatchStrict_digit c s hd ha2]
    by_cases hdot : (advanceIfEqual '.' (advanceWhileMatching isDigit10 s).snd).fst = true <;>
      constructor <;> simp [hdot, List.filter] <;> rfl
  · have hperm : dispatch c s = ([], s) := by
      unfold dispatch
      rw [if_neg h1, if_neg h2, if_neg h3, if_neg h4, if_neg h5, if_neg h6, if_neg h7,
        if_neg h8, if_neg h9, if_neg h10, if_neg h11, if_neg h12, if_neg h13, if_neg h14,
        if_neg h15, if_neg h16, if_neg h17, if_neg ha, if_neg hd]
    have hstrict : dispatchStrict c s
        = ([], [.UnexpectedChar { line := s.line, column := s.column } c], s) := by
      unfold dispatchStrict
      rw [if_neg h1, if_neg h2, if_neg h3, if_neg h4, if_neg h5, if_neg h6, if_neg h7,
        if_neg h8, if_neg h9, if_neg h10, if_neg h11, if_neg h12, if_neg h13, if_neg h14,
        if_neg h15, if_neg h16, if_neg h17, if_neg ha, if_neg hd]
    rw [hperm, hstrict]
    exact ⟨rfl, rfl⟩

/-- Loop-level comparison: over the whole run, the strict (spec-modelled)
lexer returns exactly the permissive lexer's tokens minus lone-`!`
boolean-not tokens, and finishes in the same cursor state: collecting
errors suppresses no other token and never derails the scan. -/
theorem tokenizeStrictLoop_vs_loop (fuel : Nat) : ∀ s : LexState,
    (tokenizeStrictLoop fuel s).fst
      = ((tokenizeLoop fuel s).fst).filter
          (fun t => !(t.token_type == TokenType.BooleanNot))
    ∧ (tokenizeStrictLoop fuel s).snd.snd = (tokenizeLoop fuel s).snd := by
  induction fuel with
  | zero => intro s; exact ⟨rfl, rfl⟩
  | succ n ih =>
    intro s
    rcases hadv : advance s with ⟨oc, s1⟩
    cases oc with
    | none =>
      simp only [tokenizeLoop, tokenizeStrictLoop, hadv]
      exact ⟨rfl, trivial⟩
    | some c =>
      simp only [tokenizeLoop, tokenizeStrictLoop, hadv]
      obtain ⟨hT, hS⟩ := dispatchStrict_vs_dispatch c s1
      constructor
      · rw [hS, hT, List.filter_append, (ih (dispatch c s1).snd).1]
      · rw [hS, (ih (dispatch c s1).snd).2]

/-! ## Claim theorems -/

/-- C1: in the strict (spec-modelled) lexer a single `tokenize` call
returns both the ordered token sequence and the collection of lexical
errors.  Errors never suppress tokens produced elsewhere: for every input
the strict lexer's token list is exactly the permissive src/ lexer's token
list minus only the lone-`!` reclassification (which the strict variant
reports as an error instead of a boolean-not token), and both lexers
finish in the same cursor state.  Concretely, "?a!b" yields the two
Identifier tokens produced between and after the two error sites,
alongside both accumulated errors, from the one call. -/
theorem C1_errors_accumulated_without_suppressing_tokens :
    (∀ source : String,
        (tokenizeStrict source).fst
          = (tokenize source).filter
              (fun t => !(t.token_type == TokenType.BooleanNot)))
    ∧ (∀ source : String,
        (tokenizeStrictFull source).snd.snd = (tokenizeFull source).snd)
    ∧ tokenizeStrict "?a!b"
        = ([{ token_type := .Identifier, lexeme := "a", line := 1 },
            { token_type := .Identifier, lexeme := "b", line := 1 }],
           [.UnexpectedChar { line := 1, column := 1 } '?',
            .UnexpectedChar { line := 1, column := 3 } '!']) := by
  refine ⟨?_, ?_, by decide⟩
  · intro source
    exact (tokenizeStrictLoop_vs_loop (source.data.length + 1) (Lexer.new source)).1
  · intro source
    exact (tokenizeStrictLoop_vs_loop (source.data.length + 1) (Lexer.new source)).2

/-- C8: for every lexer state and expected character, `advance_if_equal`
consumes one character (dropping the head of the remaining input and
bumping the column) and returns true exactly when `peek()` equals the
expected character; when it returns false the remaining input, line and
column are exactly as before the call. -/
theorem C8_advance_if_equal_frame (s : LexState) (e : Char) :
    ((advanceIfEqual e s).fst = true ↔ peek s = some e)
    ∧ ((advanceIfEqual e s).fst = true →
        (advanceIfEqual e s).snd
          = { s with input := s.input.tail, column := s.column + 1 })
    ∧ ((advanceIfEqual e s).fst = false → (advanceIfEqual e s).snd = s) := by
  by_cases hp : peek s = some e
  · rw [aie_of_peek_eq hp]
    exact ⟨by simp [hp], fun _ => rfl, by simp⟩
  · rw [aie_of_peek_ne hp]
    exact ⟨by simp [hp], by simp, fun _ => rfl⟩

/-- C8 witness: on the state over "foo", probing for 'f' succeeds and the
head is consumed with the column bumped. -/
theorem C8_advance_if_equal_frame_witness :
    (advanceIfEqual 'f' { input := ['f', 'o', 'o'], line := 1, column := 0 }).snd
      = { input := ['o', 'o'], line := 1, column := 1 } := by
  have h :=
    (C8_advance_if_equal_frame { input := ['f', 'o', 'o'], line := 1, column := 0 } 'f').2.1
      (by decide)
  simpa using h

/-- C10: a successful `advance_if_equal` bumps the column by 1 and never
modifies the line — even when the consumed character is a newline, in which
case (unlike `advance`) the line is not incremented and the column is not
reset to 0. -/
theorem C10_advance_if_equal_ignores_newline (s : LexState) (e : Char)
    (h : peek s = some e) :
    (advanceIfEqual e s).fst = true
    ∧ ((advanceIfEqual e s).snd).line = s.line
    ∧ ((advanceIfEqual e s).snd).column = s.column + 1
    ∧ ((advanceIfEqual e s).snd).input = s.input.tail := by
  rw [aie_of_peek_eq h]
  exact ⟨rfl, rfl, rfl, rfl⟩

/-- C10 witness: consuming a newline via `advance_if_equal('\n')` leaves
the line at 3 and bumps the column from 5 to 6 instead of resetting it. -/
theorem C10_advance_if_equal_ignores_newline_witness :
    ((advanceIfEqual '\n' { input := ['\n', 'x'], line := 3, column := 5 }).snd).line = 3
    ∧ ((advanceIfEqual '\n' { input := ['\n', 'x'], line := 3, column := 5 }).snd).column = 6 := by
  have h :=
    C10_advance_if_equal_ignores_newline { input := ['\n', 'x'], line := 3, column := 5 } '\n'
      (by decide)
  exact ⟨h.2.1, h.2.2.1⟩

/-- C9 counterexample to the claim's global consequence: tokenizing "//ab"
(an end-of-input comment) leaves the recorded column at 6, although only 4
characters were consumed on the final (single) line — two end-of-input
advances happened, one inside `advance_until_equal` and one in the loop, so
the column is two greater, not one. -/
theorem C9_comment_at_eof_column :
    (tokenizeFull "//ab").snd = { input := [], line := 1, column := 6 }
    ∧ charsAfterLastNewline "//ab" = 4 := by
  exact ⟨by decide, by decide⟩

/-- C9 (amended): for every lexer state whose remaining input is empty,
`advance()` returns None yet still increments the column field by 1 (the
increment happens before the end-of-input check).  After `tokenize` runs to
exhaustion the recorded column therefore exceeds the number of characters
consumed on the final line by one end-of-input increment per advance that
ran off the end: by exactly one on inputs whose string/comment scans never
reach end of input (e.g. "a = 1;\nb = 2;", column 7 = 6 + 1), and by more
when an inner scan itself runs off the end (e.g. "//ab", column 6 = 4 + 2). -/
theorem C9_advance_at_eof_increments_column :
    (∀ s : LexState, s.input = [] →
        advance s = (none, { s with column := s.column + 1 }))
    ∧ (tokenizeFull "a = 1;\nb = 2;").snd.column
        = charsAfterLastNewline "a = 1;\nb = 2;" + 1
    ∧ (tokenizeFull "//ab").snd.column = charsAfterLastNewline "//ab" + 2 := by
  refine ⟨?_, by decide, by decide⟩
  intro s h
  cases s with
  | mk inp l col =>
    simp only at h
    subst h
    rfl

/-- C9 witness: at the exhausted state ⟨[], 2, 6⟩, `advance` returns no
character and records column 7. -/
theorem C9_advance_at_eof_increments_column_witness :
    advance { input := [], line := 2, column := 6 }
      = (none, { input := [], line := 2, column := 7 }) := by
  have h := C9_advance_at_eof_increments_column.1 { input := [], line := 2, column := 6 } rfl
  simpa using h

/-- C5 counterexample: after tokenizing "a = 1;\nb = 2;" the final cursor
state records column 7, not the claimed 6 (the second line has 6
characters, and the final end-of-input `advance` bumped the column once
more) — matching the repository's own `test_newline` assertion. -/
theorem C5_recorded_column_is_seven :
    (tokenizeFull "a = 1;\nb = 2;").snd = { input := [], line := 2, column := 7 } := by
  decide

/-- C5 (amended): after `tokenize` runs to exhaustion on "a = 1;\nb = 2;",
the recorded line is 2 and the recorded column is 7: the 6 characters
consumed on the second line plus one increment from the final end-of-input
`advance`. -/
theorem C5_line_column_after_two_line_input :
    (tokenizeFull "a = 1;\nb = 2;").snd.line = 2
    ∧ (tokenizeFull "a = 1;\nb = 2;").snd.column = 7
    ∧ charsAfterLastNewline "a = 1;\nb = 2;" = 6 := by
  exact ⟨by decide, by decide, by decide⟩

/-- C2: in the strict (spec-modelled) lexer, a consumed `!` whose following
character is not `=` produces no token and reports `UnexpectedChar` at the
`!`'s position, leaving the cursor untouched; `!` immediately followed by
`=` consumes the `=` and emits a single NotEquals token.  Concretely,
"!" yields no tokens and one error, and "!=" yields one NotEquals token
and no errors. -/
theorem C2_lone_bang_is_error (s : LexState) :
    (peek s ≠ some '=' →
        dispatchStrict '!' s
          = ([], [.UnexpectedChar { line := s.line, column := s.column } '!'], s))
    ∧ (peek s = some '=' →
        dispatchStrict '!' s
          = ([{ token_type := .NotEquals, lexeme := "!=", line := s.line }], [],
             { s with input := s.input.tail, column := s.column + 1 }))
    ∧ tokenizeStrict "!" = ([], [.UnexpectedChar { line := 1, column := 1 } '!'])
    ∧ tokenizeStrict "!="
        = ([{ token_type := .NotEquals, lexeme := "!=", line := 1 }], []) := by
  have hb : dispatchStrict '!' s =
      (let r := advanceIfEqual '=' s
       if r.fst then
         ([{ token_type := .NotEquals, lexeme := "!=", line := r.snd.line }], [], r.snd)
       else
         ([], [.UnexpectedChar { line := s.line, column := s.column } '!'], r.snd)) := rfl
  refine ⟨?_, ?_, by decide, by decide⟩
  · intro h
    rw [hb, aie_of_peek_ne h]
    rfl
  · intro h
    rw [hb, aie_of_peek_eq h]
    rfl


/-- C2 witness: on the state over "!b" (the `!` already consumed, `b`
next), the strict dispatch reports the error at line 1, column 1 and emits
no token; over "=..." it emits NotEquals. -/
theorem C2_lone_bang_is_error_witness :
    dispatchStrict '!' { input := ['b'], line := 1, column := 1 }
      = ([], [.UnexpectedChar { line := 1, column := 1 } '!'],
         { input := ['b'], line := 1, column := 1 })
    ∧ dispatchStrict '!' { input := ['='], line := 1, column := 1 }
      = ([{ token_type := .NotEquals, lexeme := "!=", line := 1 }], [],
         { input := [], line := 1, column := 2 }) := by
  constructor
  · exact (C2_lone_bang_is_error { input := ['b'], line := 1, column := 1 }).1 (by decide)
  · have h := (C2_lone_bang_is_error { input := ['='], line := 1, column := 1 }).2.1 (by decide)
    simpa using h

/-- C3: in the strict (spec-modelled) lexer, an opening quote with no
matching close before end of input produces zero tokens and exactly one
`UnterminatedStringSequence` whose `starts_at` is the opening quote's
position and whose `ends_at` is the position where scanning stopped.
Concretely, tokenizing "\"Hello" (opening quote, no closing quote) yields
zero tokens and the single error from ⟨1,1⟩ to ⟨1,7⟩. -/
theorem C3_unterminated_string_error (s s1 : LexState)
    (h : advanceUntilEqual '"' s = (.error (), s1)) :
    dispatchStrict '"' s
      = ([], [.UnterminatedStringSequence { line := s.line, column := s.column }
                { line := s1.line, column := s1.column }], s1)
    ∧ tokenizeStrict "\"Hello"
        = ([], [.UnterminatedStringSequence { line := 1, column := 1 }
                  { line := 1, column := 7 }]) := by
  have hb : dispatchStrict '"' s =
      (let r := advanceUntilEqual '"' s
       match r.fst with
       | .ok cs =>
         ([{ token_type := .String, lexeme := String.mk cs, line := r.snd.line }], [], r.snd)
       | .error _ =>
         ([], [.UnterminatedStringSequence { line := s.line, column := s.column }
                 { line := r.snd.line, column := r.snd.column }], r.snd)) := rfl
  refine ⟨?_, by decide⟩
  rw [hb, h]

/-- C3 witness: dispatching the already-consumed opening quote of "\"Hi"
(no closing quote, three characters left unscanned) reports the sequence as
running from ⟨1,1⟩ to ⟨1,4⟩ and pushes no token. -/
theorem C3_unterminated_string_error_witness :
    dispatchStrict '"' { input := ['H', 'i'], line := 1, column := 1 }
      = ([], [.UnterminatedStringSequence { line := 1, column := 1 }
                { line := 1, column := 4 }],
         { input := [], line := 1, column := 4 }) := by
  have h := C3_unterminated_string_error { input := ['H', 'i'], line := 1, column := 1 }
    { input := [], line := 1, column := 4 } rfl
  exact h.1

/-- C7: a scanned name starting with an alphabetic character always goes
through the keyword lookup on the full maximal alphanumeric run: each of
the nine keywords maps to its dedicated keyword variant (never
`Identifier`), any other name yields exactly one Identifier token carrying
the full name as lexeme, and keyword matching requires exact full-name
equality — "if32" lexes as one Identifier token with lexeme "if32". -/
theorem C7_keyword_lookup_on_full_name :
    (∀ line : Nat,
        nameToken "true" line = { token_type := .True, lexeme := "true", line := line }
        ∧ nameToken "false" line = { token_type := .False, lexeme := "false", line := line }
        ∧ nameToken "and" line = { token_type := .And, lexeme := "and", line := line }
        ∧ nameToken "or" line = { token_type := .Or, lexeme := "or", line := line }
        ∧ nameToken "var" line = { token_type := .Var, lexeme := "var", line := line }
        ∧ nameToken "print" line = { token_type := .Print, lexeme := "print", line := line }
        ∧ nameToken "if" line = { token_type := .If, lexeme := "if", line := line }
        ∧ nameToken "else" line = { token_type := .Else, lexeme := "else", line := line }
        ∧ nameToken "while" line = { token_type := .While, lexeme := "while", line := line })
    ∧ (∀ (name : String) (line : Nat),
        name ∉ (["true", "false", "and", "or", "var", "print", "if", "else", "while"] :
            List String) →
          nameToken name line = { token_type := .Identifier, lexeme := name, line := line })
    ∧ (∀ (c : Char) (s : LexState), isAlphabetic c = true →
        dispatch c s =
          (let r := advanceWhileMatching isAlphanumeric s
           ([nameToken (String.mk (c :: r.fst)) r.snd.line], r.snd)))
    ∧ tokenize "if32" = [{ token_type := .Identifier, lexeme := "if32", line := 1 }] := by
  refine ⟨?_, ?_, ?_, by decide⟩
  · intro line
    refine ⟨rfl, ?_, ?_, ?_, ?_, ?_, ?_, ?_, ?_⟩ <;> rfl
  · intro name line h
    unfold nameToken
    split_ifs with h1 h2 h3 h4 h5 h6 h7 h8 h9 <;> first | rfl | (exfalso; apply h; simp_all)
  · intro c s hc
    exact dispatch_alpha c s hc

/-- C7 witness: the non-keyword name "if32" becomes an Identifier token
carrying the full name, and dispatching the alphabetic 'i' over the rest
of "if32" takes the name-scanning branch. -/
theorem C7_keyword_lookup_on_full_name_witness :
    nameToken "if32" 1 = { token_type := .Identifier, lexeme := "if32", line := 1 }
    ∧ dispatch 'i' { input := ['f', '3', '2'], line := 1, column := 1 }
        = (let r := advanceWhileMatching isAlphanumeric
               { input := ['f', '3', '2'], line := 1, column := 1 }
           ([nameToken (String.mk ('i' :: r.fst)) r.snd.line], r.snd)) := by
  constructor
  · exact C7_keyword_lookup_on_full_name.2.1 "if32" 1 (by decide)
  · exact C7_keyword_lookup_on_full_name.2.2.1 'i'
      { input := ['f', '3', '2'], line := 1, column := 1 } (by decide)

/-- C6: tokenizing "123.456." yields exactly one Number token with lexeme
"123.456"; in the strict (spec-modelled) lexer the trailing lone '.'
re-enters the dispatch loop and is reported as `UnexpectedChar` at its
position ⟨1,8⟩.  Generally, any consumed digit starts the numeric-literal
branch: a greedy digit run, then at most one '.' probed by
`advance_if_equal` and followed by another greedy digit run — a second '.'
is never consumed into the number. -/
theorem C6_number_consumes_at_most_one_dot :
    tokenize "123.456." = [{ token_type := .Number, lexeme := "123.456", line := 1 }]
    ∧ tokenizeStrict "123.456."
        = ([{ token_type := .Number, lexeme := "123.456", line := 1 }],
           [.UnexpectedChar { line := 1, column := 8 } '.'])
    ∧ (∀ (c : Char) (s : LexState), isDigit10 c = true → isAlphabetic c = false →
        dispatch c s =
          (let r := advanceWhileMatching isDigit10 s
           let d := advanceIfEqual '.' r.snd
           if d.fst then
             let r2 := advanceWhileMatching isDigit10 d.snd
             ([{ token_type := .Number, lexeme := String.mk (c :: r.fst ++ '.' :: r2.fst),
                 line := r2.snd.line }], r2.snd)
           else
             ([{ token_type := .Number, lexeme := String.mk (c :: r.fst),
                 line := d.snd.line }], d.snd))) := by
  refine ⟨by decide, by decide, ?_⟩
  intro c s hd ha
  exact dispatch_digit c s hd ha

/-- C4 counterexample: tokenizing a string literal whose body spans a
newline — the five characters quote, 'a', newline, 'b', quote, with the
opening quote on line 1 of a fresh lexer — yields a String token whose
`line` is 2, the line where the literal ends, not the opening quote's
line 1. -/
theorem C4_multiline_string_carries_end_line :
    tokenize "\"a\nb\"" = [{ token_type := .String, lexeme := "a\nb", line := 2 }]
    ∧ (Lexer.new "\"a\nb\"").line = 1 := by
  exact ⟨by decide, rfl⟩

/-- C4 (amended): every token is emitted with the lexer's line counter read
at emission time.  For every token other than a string literal this equals
the line at consumption of the token's first/triggering character, because
no other token's scan can cross a newline; a String token instead carries
the line reached after scanning its body (the closing quote's line), which
differs from the opening quote's line when the body spans a newline. -/
theorem C4_token_line_at_emission (c : Char) (s : LexState) (t : Token)
    (ht : t ∈ (dispatch c s).fst) :
    (c ≠ '"' → t.line = s.line)
    ∧ (c = '"' → t.line = ((advanceUntilEqual '"' s).snd).line) := by
  by_cases h1 : c = '+'
  · subst h1
    simp [dispatch] at ht
    subst ht
    exact ⟨fun _ => rfl, fun hq => absurd hq (by decide)⟩
  by_cases h2 : c = '-'
  · subst h2
    simp [dispatch] at ht
    subst ht
    exact ⟨fun _ => rfl, fun hq => absurd hq (by decide)⟩
  by_cases h3 : c = '*'
  · subst h3
    simp [dispatch] at ht
    subst ht
    exact ⟨fun _ => rfl, fun hq => absurd hq (by decide)⟩
  by_cases h4 : c = '/'
  · subst h4
    by_cases hr : (advanceIfEqual '/' s).fst = true
    · simp [dispatch, hr] at ht
    · simp [dispatch, hr] at ht
      subst ht
      exact ⟨fun _ => aie_line '/' s, fun hq => absurd hq (by decide)⟩
  by_cases h5 : c = '='
  · subst h5
    by_cases hr : (advanceIfEqual '=' s).fst = true <;> simp [dispatch, hr] at ht <;>
      subst ht <;> exact ⟨fun _ => aie_line '=' s, fun hq => absurd hq (by decide)⟩
  by_cases h6 : c = '>'
  · subst h6
    by_cases hr : (advanceIfEqual '=' s).fst = true <;> simp [dispatch, hr] at ht <;>
      subst ht <;> exact ⟨fun _ => aie_line '=' s, fun hq => absurd hq (by decide)⟩
  by_cases h7 : c = '<'
  · subst h7
    by_cases hr : (advanceIfEqual '=' s).fst = true <;> simp [dispatch, hr] at ht <;>
      subst ht <;> exact ⟨fun _ => aie_line '=' s, fun hq => absurd hq (by decide)⟩
  by_cases h8 : c = '!'
  · subst h8
    by_cases hr : (advanceIfEqual '=' s).fst = true <;> simp [dispatch, hr] at ht <;>
      subst ht <;> exact ⟨fun _ => aie_line '=' s, fun hq => absurd hq (by decide)⟩
  by_cases h9 : c = ';'
  · subst h9
    simp [dispatch] at ht
    subst ht
    exact ⟨fun _ => rfl, fun hq => absurd hq (by decide)⟩
  by_cases h10 : c = '('
  · subst h10
    simp [dispatch] at ht
    subst ht
    exact ⟨fun _ => rfl, fun hq => absurd hq (by decide)⟩
  by_cases h11 : c = ')'
  · subst h11
    simp [dispatch] at ht
    subst ht
    exact ⟨fun _ => rfl, fun hq => absurd hq (by decide)⟩
  by_cases h12 : c = '\x7b'
  · subst h12
    simp [dispatch] at ht
    subst ht
    exact ⟨fun _ => rfl, fun hq => absurd hq (by decide)⟩
  by_cases h13 : c = '\x7d'
  · subst h13
    simp [dispatch] at ht
    subst ht
    exact ⟨fun _ => rfl, fun hq => absurd hq (by decide)⟩
  by_cases h14 : c = '"'
  · subst h14
    cases hq : (advanceUntilEqual '"' s).fst with
    | ok cs =>
      simp [dispatch, hq] at ht
      subst ht
      exact ⟨fun hne => absurd rfl hne, fun _ => rfl⟩
    | error e =>
      simp [dispatch, hq] at ht
  by_cases h15 : c = '\n'
  · subst h15
    simp [dispatch] at ht
  by_cases h16 : c = ' '
  · subst h16
    simp [dispatch] at ht
  by_cases h17 : c = '\t'
  · subst h17
    simp [dispatch] at ht
  by_cases ha : isAlphabetic c = true
  · rw [dispatch_alpha c s ha] at ht
    simp at ht
    subst ht
    refine ⟨fun _ => ?_, fun hq => absurd hq h14⟩
    rw [nameToken_line, awm_alnum_line]
  by_cases hd : isDigit10 c = true
  · have ha2 : isAlphabetic c = false := by
      cases hA : isAlphabetic c
      · rfl
      · exact absurd hA ha
    rw [dispatch_digit c s hd ha2] at ht
    by_cases hdot : (advanceIfEqual '.' (advanceWhileMatching isDigit10 s).snd).fst = true
    · simp [hdot] at ht
      subst ht
      refine ⟨fun _ => ?_, fun hq => absurd hq h14⟩
      rw [awm_digit_line, aie_line, awm_digit_line]
    · simp [hdot] at ht
      subst ht
      refine ⟨fun _ => ?_, fun hq => absurd hq h14⟩
      rw [aie_line, awm_digit_line]
  · rw [show dispatch c s = ([], s) by
      unfold dispatch
      rw [if_neg h1, if_neg h2, if_neg h3, if_neg h4, if_neg h5, if_neg h6, if_neg h7,
        if_neg h8, if_neg h9, if_neg h10, if_neg h11, if_neg h12, if_neg h13, if_neg h14,
        if_neg h15, if_neg h16, if_neg h17, if_neg ha, if_neg hd]] at ht
    simp at ht

/-- C4 witness: dispatching an already-consumed opening quote whose body
'a', newline, 'b' spans a newline produces a String token whose line is the
line reached after scanning the body. -/
theorem C4_token_line_at_emission_witness :
    ({ token_type := TokenType.String, lexeme := "a\nb", line := 2 } : Token).line
      = ((advanceUntilEqual '"'
            { input := ['a', '\n', 'b', '"'], line := 1, column := 1 }).snd).line :=
  (C4_token_line_at_emission '"' { input := ['a', '\n', 'b', '"'], line := 1, column := 1 }
      { token_type := TokenType.String, lexeme := "a\nb", line := 2 } (by decide)).2 rfl

/-- C6 witness: dispatching the consumed digit '1' over remaining input
"2.3" takes the numeric-literal branch. -/
theorem C6_number_consumes_at_most_one_dot_witness :
    dispatch '1' { input := ['2', '.', '3'], line := 1, column := 1 }
      = (let r := advanceWhileMatching isDigit10
             { input := ['2', '.', '3'], line := 1, column := 1 }
         let d := advanceIfEqual '.' r.snd
         if d.fst then
           let r2 := advanceWhileMatching isDigit10 d.snd
           ([{ token_type := .Number, lexeme := String.mk ('1' :: r.fst ++ '.' :: r2.fst),
               line := r2.snd.line }], r2.snd)
         else
           ([{ token_type := .Number, lexeme := String.mk ('1' :: r.fst),
               line := d.snd.line }], d.snd)) :=
  C6_number_consumes_at_most_one_dot.2.2 '1'
    { input := ['2', '.', '3'], line := 1, column := 1 } (by decide) (by decide)

end SPL
